import Mathlib

/-!
Verification of the browser-side orchestration core of the monoq-bot
frontend (src/src/frontend/static/js/main.js): the polling/retry state
machine around startPolling and handlePollingError, the incremental
result rendering of updateResult, and the phase-animation timeline of
processPhase and updatePhase.

The DOM surface the code touches is embedded shallowly: the results
container is a list of element nodes, each with an id, a class list and
a structured rendering of its innerHTML; the pieces of the document
that the code queries by class (elements carrying the class
text-purple-400, which includes both status-message divs and the
download anchors inside a rendered success entry) are modelled
explicitly so that querySelector is faithful to document order.
-/

namespace MonoqBot

/-- A download anchor inside a rendered success entry.  In the real markup
these are the two a elements of the Download Links section; both carry
the classes text-purple-400 and hover:text-purple-300. -/
structure Anchor where
  href : String
  html : String
deriving Repr, DecidableEq

/-- Structured innerHTML of a child of the results container.
successLayout and errorLayout are the two bodies written by
updateResult; statusDiv is the body of a processing or status message
div; errorBox is the body written by showError.  empty is a freshly
created element before any innerHTML assignment. -/
inductive NodeContent where
  | empty : NodeContent
  | successLayout (strategy_number : Nat) (link strategy backtest : String)
      (anchors : List Anchor) : NodeContent
  | errorLayout (strategy_number : Nat) (msg : String) : NodeContent
  | statusDiv (html : String) : NodeContent
  | errorBox (msg : String) : NodeContent
deriving Repr, DecidableEq

/-- An element node: id attribute, class list and structured content. -/
structure Node where
  id : String
  classes : List String
  content : NodeContent
deriving Repr, DecidableEq

/-- The class used both by status messages and by download anchors. -/
def purpleClass : String := "text-purple-400"

/-- Classes of the status and processing message divs created by the
submit handler and by handlePollingError. -/
def statusClasses : List String := ["text-purple-400", "mt-4", "text-center"]

/-- Classes given to a freshly created result node by updateResult. -/
def newResultClasses : List String :=
  ["bg-gray-800", "rounded-lg", "p-6", "success-animation"]

/-- Classes of the error box div rendered by showError. -/
def errorBoxClasses : List String :=
  ["p-4", "bg-red-100", "border", "border-red-400", "text-red-700", "rounded"]

/-- The descendants of a node that match the selector .text-purple-400,
beyond the node itself: exactly the download anchors of a success
layout. -/
def contentAnchors : NodeContent → List Anchor
  | NodeContent.successLayout _ _ _ _ anchors => anchors
  | _ => []

/-- Whether the subtree rooted at a child of the results container holds
an element of class text-purple-400 (the child itself or a download
anchor inside it). -/
def nodeHasPurple (n : Node) : Bool :=
  n.classes.contains purpleClass || !(contentAnchors n.content).isEmpty

/-- querySelector followed by remove: delete the first element of class
text-purple-400 in document order.  If that element is a status div it
is removed from the container; if it is a download anchor it is removed
from inside its success entry. -/
def removeFirstPurple : List Node → List Node
  | [] => []
  | n :: rest =>
    if n.classes.contains purpleClass then rest
    else
      match n.content with
      | NodeContent.successLayout k l s b (_ :: as) =>
        { n with content := NodeContent.successLayout k l s b as } :: rest
      | _ => n :: removeFirstPurple rest

/-- Assignment to the innerHTML of an element found by querySelector on
class text-purple-400: only status divs carry the class on themselves. -/
def setContentHtml (c : NodeContent) (h : String) : NodeContent :=
  match c with
  | NodeContent.statusDiv _ => NodeContent.statusDiv h
  | other => other

/-- querySelector followed by an innerHTML assignment: overwrite the
innerHTML of the first element of class text-purple-400 in document
order.  When that element is a download anchor inside a success entry,
the anchor body is overwritten. -/
def setFirstPurpleHtml (h : String) : List Node → List Node
  | [] => []
  | n :: rest =>
    if n.classes.contains purpleClass then
      { n with content := setContentHtml n.content h } :: rest
    else
      match n.content with
      | NodeContent.successLayout k l s b (a :: as) =>
        { n with content :=
            NodeContent.successLayout k l s b ({ a with html := h } :: as) } :: rest
      | _ => n :: setFirstPurpleHtml h rest

/-! ## ResultStore: updateResult -/

/-- Wire shape of a result entry from the results endpoint. -/
structure ResultEntry where
  strategy_number : Nat
  status : String
  link : String
  strategy : String
  backtest : String
  strategy_file : String
  backtest_file : String
  error : String
deriving Repr, DecidableEq

/-- The element id derived from a strategy number. -/
def resultId (n : Nat) : String := "strategy-" ++ toString n

/-- The id under which an entry is rendered. -/
def entryId (e : ResultEntry) : String := resultId e.strategy_number

/-- Body of the Download Strategy anchor as written by updateResult. -/
def downloadStrategyHtml : String :=
  "<i class=\"fas fa-download\"></i><span>Download Strategy</span>"

/-- Body of the Download Backtest anchor as written by updateResult. -/
def downloadBacktestHtml : String :=
  "<i class=\"fas fa-download\"></i><span>Download Backtest</span>"

/-- The two download anchors of a freshly rendered success layout. -/
def successAnchors (r : ResultEntry) : List Anchor :=
  [ { href := "/download/strategy/" ++ r.strategy_file, html := downloadStrategyHtml },
    { href := "/download/backtest/" ++ r.backtest_file, html := downloadBacktestHtml } ]

/-- The innerHTML written by updateResult for an entry, by status. -/
def renderContent (r : ResultEntry) : NodeContent :=
  if r.status = "success" then
    NodeContent.successLayout r.strategy_number r.link r.strategy r.backtest
      (successAnchors r)
  else
    NodeContent.errorLayout r.strategy_number r.error

/-- classList.add: append the class if it is not already present. -/
def addClass (classes : List String) (c : String) : List String :=
  if classes.contains c then classes else classes ++ [c]

/-- The status-dependent part of updateResult applied to an existing or
freshly created node: assign the innerHTML and, on the error branch,
classList.add the class error-animation. -/
def applyResult (r : ResultEntry) (n : Node) : Node :=
  if r.status = "success" then { n with content := renderContent r }
  else { n with content := renderContent r,
                classes := addClass n.classes "error-animation" }

/-- Replace the first node carrying the given id (document.getElementById
returns the first element with a matching id). -/
def replaceFirstById (rid : String) (f : Node → Node) : List Node → List Node
  | [] => []
  | n :: rest =>
    if n.id = rid then f n :: rest else n :: replaceFirstById rid f rest

/-- updateResult: look the entry up by its derived id; if present,
rewrite that node in place; if absent, create a node with the standard
classes and append it to the results container. -/
def updateResult (container : List Node) (r : ResultEntry) : List Node :=
  if container.any (fun n => n.id = entryId r) then
    replaceFirstById (entryId r) (applyResult r) container
  else
    container ++ [applyResult r { id := entryId r, classes := newResultClasses,
                                  content := NodeContent.empty }]

/-! ## PollingController: startPolling, handlePollingError, showError -/

/-- The page state touched by the polling machinery.  pollActive models
whether the interval set by startPolling is still registered;
clearCount counts the clearInterval calls made on a live handle;
phasesStartedCount and pollsStartedCount count, per page lifetime, the
launches of the phase timeline and of startPolling. -/
structure St where
  pollActive : Bool
  retryCount : Nat
  spinnerHidden : Bool
  container : List Node
  clearCount : Nat
  phasesStartedCount : Nat
  pollsStartedCount : Nat
deriving Repr, DecidableEq

def MAX_RETRIES : Nat := 10

/-- Message used on a 200 response without usable results. -/
def stillProcessingMsg : String := "Still processing your strategy..."

/-- Message used when the probe timed out or was aborted. -/
def timeoutMsg : String := "Still working on your strategy... This may take a few minutes."

/-- Message used on any other probe failure, including a non-ok HTTP
status converted to a thrown Error. -/
def checkingMsg : String := "Checking strategy progress..."

/-- Message passed to handlePollingError by the submit catch handler. -/
def startingMsg : String := "Starting strategy processing..."

/-- Text of the notice shown when the retry budget is exhausted. -/
def softExhaustionMessage : String :=
  "Strategy processing is still running in the background. Your results will be saved! Please check back in a few minutes."

/-- Body of the processing message appended on a successful submit. -/
def initialProcessingHtml : String :=
  "🔄 Processing your strategy... This may take a few minutes."

/-- The status line built by handlePollingError. -/
def attemptHtml (message : String) (k : Nat) : String :=
  message ++ " (Attempt " ++ toString k ++ "/" ++ toString MAX_RETRIES ++ ")"

/-- showError: hide the spinner and replace the entire innerHTML of the
results container with a single red error box. -/
def showError (msg : String) (s : St) : St :=
  { s with spinnerHidden := true,
           container := [{ id := "", classes := errorBoxClasses,
                           content := NodeContent.errorBox msg }] }

/-- handlePollingError: increment retryCount; overwrite the innerHTML of
the first element of class text-purple-400 if one exists, else append a
fresh status div; once retryCount reaches MAX_RETRIES, clear the
interval, hide the spinner and invoke showError with the soft notice. -/
def handlePollingError (message : String) (s : St) : St :=
  let k := s.retryCount + 1
  let h := attemptHtml message k
  let container' :=
    if s.container.any nodeHasPurple then setFirstPurpleHtml h s.container
    else s.container ++ [{ id := "", classes := statusClasses,
                           content := NodeContent.statusDiv h }]
  let s' := { s with retryCount := k, container := container' }
  if k ≥ MAX_RETRIES then
    showError softExhaustionMessage
      { s' with pollActive := false, spinnerHidden := true,
                clearCount := s'.clearCount + 1 }
  else s'

/-- Parsed JSON body of a 200 response from the results endpoint.
results is none when the field is missing or not an array. -/
structure ResultsResponse where
  status : String
  results : Option (List ResultEntry)
  is_complete : Bool
deriving Repr, DecidableEq

/-- Outcome of one probe of the results endpoint: either fetch resolved
(with the ok flag and the parsed body) or fetch rejected with an error
whose name field drives the message choice. -/
inductive ProbeResult where
  | response (ok : Bool) (data : ResultsResponse) : ProbeResult
  | fetchError (name : String) : ProbeResult
deriving Repr, DecidableEq

/-- The guard of the success branch of the polling tick: status is the
string success, results is an array, and it is non-empty. -/
def classifySuccess (d : ResultsResponse) : Option (List ResultEntry) :=
  if d.status = "success" then
    match d.results with
    | some rs => if rs.length > 0 then some rs else none
    | none => none
  else none

/-- Whether a probe outcome takes one of the handlePollingError paths. -/
def isRetryable (p : ProbeResult) : Bool :=
  match p with
  | ProbeResult.response true d => (classifySuccess d).isNone
  | _ => true

/-- The success branch of the polling tick: reset retryCount, remove the
first element of class text-purple-400 if any, upsert every entry, and
when is_complete holds clear the interval and hide the spinner. -/
def successTick (rs : List ResultEntry) (complete : Bool) (s : St) : St :=
  let c1 := if s.container.any nodeHasPurple then removeFirstPurple s.container
            else s.container
  let c2 := rs.foldl updateResult c1
  let s2 := { s with retryCount := 0, container := c2 }
  if complete then
    { s2 with pollActive := false, clearCount := s2.clearCount + 1,
              spinnerHidden := true }
  else s2

/-- One firing of the interval callback set by startPolling. -/
def tick (s : St) (p : ProbeResult) : St :=
  match p with
  | ProbeResult.response true d =>
    match classifySuccess d with
    | some rs => successTick rs d.is_complete s
    | none => handlePollingError stillProcessingMsg s
  | ProbeResult.response false _ => handlePollingError checkingMsg s
  | ProbeResult.fetchError name =>
    if name = "TimeoutError" || name = "AbortError" then
      handlePollingError timeoutMsg s
    else handlePollingError checkingMsg s

/-- A polling session run: the callback fires once per listed probe
while the interval is registered; a cleared interval fires no more. -/
def run (s : St) : List ProbeResult → St
  | [] => s
  | p :: ps => if s.pollActive then run (tick s p) ps else s

/-- Session state right after a successful submit acknowledgment: the
container was reset and holds the initial processing message, the
spinner is visible, retryCount is 0, and the interval is registered. -/
def freshSession : St :=
  { pollActive := true, retryCount := 0, spinnerHidden := false,
    container := [{ id := "", classes := statusClasses,
                    content := NodeContent.statusDiv initialProcessingHtml }],
    clearCount := 0, phasesStartedCount := 1, pollsStartedCount := 1 }

/-- clearInterval as the platform defines it: remove the handle from the
set of live timers; clearing a handle that is not live is a no-op, not
an error. -/
def clearIntervalJS (timers : List Nat) (h : Nat) : List Nat :=
  timers.filter (fun t => t ≠ h)

/-! ## The submit handler -/

/-- Outcome of the submit POST to /analyze: fetch resolved with the ok
flag, the status string of the body and an optional message, or fetch
rejected. -/
inductive SubmitResult where
  | response (ok : Bool) (status : String) (message : Option String) : SubmitResult
  | fetchError (name : String) : SubmitResult
deriving Repr, DecidableEq

/-- Whether a submit outcome takes the catch path of the handler: a
transport failure, a non-ok HTTP status, or a non-success body. -/
def submitFails (r : SubmitResult) : Bool :=
  match r with
  | SubmitResult.response true st _ => st ≠ "success"
  | SubmitResult.response false _ _ => true
  | SubmitResult.fetchError _ => true

/-- The submit listener up to the synchronous part of the success branch:
reset the container, show the spinner, zero retryCount; on a success
acknowledgment append the processing message, call startPolling and
launch the phase timeline; on any failure fall into the catch handler,
which calls handlePollingError with the starting message. -/
def submitStep (s : St) (r : SubmitResult) : St :=
  let s0 := { s with container := [], spinnerHidden := false, retryCount := 0 }
  match r with
  | SubmitResult.response true st _ =>
    if st = "success" then
      { s0 with
        container := [{ id := "", classes := statusClasses,
                        content := NodeContent.statusDiv initialProcessingHtml }],
        pollActive := true,
        pollsStartedCount := s0.pollsStartedCount + 1,
        phasesStartedCount := s0.phasesStartedCount + 1 }
    else handlePollingError startingMsg s0
  | SubmitResult.response false _ _ => handlePollingError startingMsg s0
  | SubmitResult.fetchError _ => handlePollingError startingMsg s0

/-! ## PhaseSimulator: updatePhase and processPhase -/

/-- The three phase elements of the page. -/
inductive PhaseId where
  | research : PhaseId
  | backtest : PhaseId
  | debug : PhaseId
deriving Repr, DecidableEq

/-- The scripted messages of the research phase. -/
def researchMessages : List String :=
  [ "📚 Reading through strategy documentation...",
    "🧮 Analyzing mathematical patterns...",
    "🔍 Identifying key trading signals...",
    "📊 Processing historical data...",
    "🎯 Defining entry and exit rules..." ]

/-- The scripted messages of the backtest phase. -/
def backtestMessages : List String :=
  [ "⚙️ Setting up backtesting environment...",
    "📈 Implementing trading logic...",
    "💡 Adding risk management rules...",
    "🔧 Configuring position sizing...",
    "🎚️ Fine-tuning parameters..." ]

/-- The scripted messages of the debug phase. -/
def debugMessages : List String :=
  [ "🐛 Hunting for bugs...",
    "✨ Optimizing code performance...",
    "🔍 Reviewing edge cases...",
    "🧪 Running test scenarios...",
    "🎯 Finalizing implementation..." ]

/-- Visual state of one processing-phase element: its active class, its
phase-complete class, its phase-error class, and its message log. -/
structure PhaseElem where
  active : Bool
  complete : Bool
  errorCls : Bool
  messages : List String
deriving Repr, DecidableEq

/-- The three processing-phase elements. -/
structure PhasesState where
  research : PhaseElem
  backtest : PhaseElem
  debug : PhaseElem
deriving Repr, DecidableEq

def getPhase (ps : PhasesState) : PhaseId → PhaseElem
  | PhaseId.research => ps.research
  | PhaseId.backtest => ps.backtest
  | PhaseId.debug => ps.debug

def modifyPhase (ps : PhasesState) (i : PhaseId) (f : PhaseElem → PhaseElem) :
    PhasesState :=
  match i with
  | PhaseId.research => { ps with research := f ps.research }
  | PhaseId.backtest => { ps with backtest := f ps.backtest }
  | PhaseId.debug => { ps with debug := f ps.debug }

/-- The first statement of updatePhase: remove the active class from
every processing-phase element. -/
def clearActive (ps : PhasesState) : PhasesState :=
  { research := { ps.research with active := false },
    backtest := { ps.backtest with active := false },
    debug := { ps.debug with active := false } }

/-- updatePhase: clear active everywhere, add active to the target, and
on status complete or error additionally add the matching class. -/
def updatePhase (ps : PhasesState) (i : PhaseId) (status : String) : PhasesState :=
  modifyPhase (clearActive ps) i fun e =>
    let e1 := { e with active := true }
    if status = "complete" then { e1 with complete := true }
    else if status = "error" then { e1 with errorCls := true }
    else e1

/-- The observable steps of one processPhase call and of the surrounding
submit handler, in order: an updatePhase call, the innerHTML reset of a
message container, or the append of one scripted message. -/
inductive PhaseEvent where
  | mark (i : PhaseId) (status : String) : PhaseEvent
  | clearMessages (i : PhaseId) : PhaseEvent
  | addMessage (i : PhaseId) (m : String) : PhaseEvent
deriving Repr, DecidableEq

def stepPhase (ps : PhasesState) (e : PhaseEvent) : PhasesState :=
  match e with
  | PhaseEvent.mark i status => updatePhase ps i status
  | PhaseEvent.clearMessages i => modifyPhase ps i fun p => { p with messages := [] }
  | PhaseEvent.addMessage i m => modifyPhase ps i fun p => { p with messages := p.messages ++ [m] }

/-- The event sequence of one processPhase call: mark the phase active,
clear its message container, append each scripted message after its
timed wait, and finally mark the phase complete. -/
def phaseRunEvents (i : PhaseId) (msgs : List String) : List PhaseEvent :=
  [PhaseEvent.mark i "active", PhaseEvent.clearMessages i]
    ++ msgs.map (PhaseEvent.addMessage i) ++ [PhaseEvent.mark i "complete"]

/-- The full event sequence of one submission: the three awaited
processPhase calls run strictly in order. -/
def fullRunEvents : List PhaseEvent :=
  phaseRunEvents PhaseId.research researchMessages
    ++ phaseRunEvents PhaseId.backtest backtestMessages
    ++ phaseRunEvents PhaseId.debug debugMessages

/-- Page state before the first submission: no phase element carries any
of the classes, all message logs are empty. -/
def initialPhases : PhasesState :=
  { research := { active := false, complete := false, errorCls := false, messages := [] },
    backtest := { active := false, complete := false, errorCls := false, messages := [] },
    debug := { active := false, complete := false, errorCls := false, messages := [] } }

/-- All intermediate states of a phase-event trace, initial state first. -/
def phaseTrace (ps : PhasesState) : List PhaseEvent → List PhasesState
  | [] => [ps]
  | e :: es => ps :: phaseTrace (stepPhase ps e) es

/-- How many phase elements carry the active class. -/
def activeCount (ps : PhasesState) : Nat :=
  (if ps.research.active then 1 else 0)
    + (if ps.backtest.active then 1 else 0)
    + (if ps.debug.active then 1 else 0)

/-- The phases targeted by activation marks, in event order. -/
def activationOrder (es : List PhaseEvent) : List PhaseId :=
  es.filterMap fun e =>
    match e with
    | PhaseEvent.mark i status => if status = "active" then some i else none
    | _ => none

/-- Checks that no updatePhase call targets a phase after the call that
marked that phase complete. -/
def noMarksAfterComplete : List PhaseEvent → Bool
  | [] => true
  | e :: rest =>
    (match e with
     | PhaseEvent.mark p status =>
       if status = "complete" then
         rest.all fun e2 =>
           match e2 with
           | PhaseEvent.mark q _ => decide (q ≠ p)
           | _ => true
       else true
     | _ => true) && noMarksAfterComplete rest

/-! ## Shared message containers across overlapping runs -/

/-- The message containers addressed by overlapping PhaseSimulator runs.
Each appended message is tagged with the run that wrote it.  A run holds
a reference to the very same container elements as every other run;
resets clear the containers in place and do not replace them. -/
structure SimState where
  researchMsgs : List (Nat × String)
  backtestMsgs : List (Nat × String)
  debugMsgs : List (Nat × String)
deriving Repr, DecidableEq

def phaseMsgs (i : PhaseId) (s : SimState) : List (Nat × String) :=
  match i with
  | PhaseId.research => s.researchMsgs
  | PhaseId.backtest => s.backtestMsgs
  | PhaseId.debug => s.debugMsgs

/-- Events of overlapping runs: the submit handler clearing every
container, a processPhase call clearing one container at its start, and
a pending wait of some run appending a message. -/
inductive SimEvent where
  | resetAll : SimEvent
  | clearPhase (i : PhaseId) : SimEvent
  | appendMsg (run : Nat) (i : PhaseId) (m : String) : SimEvent
deriving Repr, DecidableEq

/-- Semantics of the shared containers: an append lands in the current
shared container of the phase, whichever run issued it. -/
def stepSim (s : SimState) (e : SimEvent) : SimState :=
  match e with
  | SimEvent.resetAll => { researchMsgs := [], backtestMsgs := [], debugMsgs := [] }
  | SimEvent.clearPhase PhaseId.research => { s with researchMsgs := [] }
  | SimEvent.clearPhase PhaseId.backtest => { s with backtestMsgs := [] }
  | SimEvent.clearPhase PhaseId.debug => { s with debugMsgs := [] }
  | SimEvent.appendMsg r PhaseId.research m => { s with researchMsgs := s.researchMsgs ++ [(r, m)] }
  | SimEvent.appendMsg r PhaseId.backtest m => { s with backtestMsgs := s.backtestMsgs ++ [(r, m)] }
  | SimEvent.appendMsg r PhaseId.debug m => { s with debugMsgs := s.debugMsgs ++ [(r, m)] }

def simRun (s : SimState) (es : List SimEvent) : SimState :=
  es.foldl stepSim s

/-! ## Specification-side helpers for stating the claims -/

/-- The ids of a sequence of entries in first-seen order, without
repetition. -/
def firstSeenIds (es : List ResultEntry) : List String :=
  es.foldl (fun acc e => if acc.contains (entryId e) then acc else acc ++ [entryId e]) []

/-- The most recently upserted entry carrying the given id, if any. -/
def lastWith (rid : String) (es : List ResultEntry) : Option ResultEntry :=
  (es.filter (fun e => entryId e = rid)).getLast?

/-- Whether a content is the success layout. -/
def isSuccessContent : NodeContent → Bool
  | NodeContent.successLayout _ _ _ _ _ => true
  | _ => false

/-- Whether a content is the error layout. -/
def isErrorContent : NodeContent → Bool
  | NodeContent.errorLayout _ _ => true
  | _ => false

/-- Whether a node is the red error box written by showError. -/
def isErrorBoxNode (n : Node) : Bool :=
  match n.content with
  | NodeContent.errorBox _ => true
  | _ => false

/-- Blank out the body of the first element of class text-purple-400:
two states equal after scrubbing differ at most in the wording of the
rendered status message. -/
def scrubStatusHtml (s : St) : St :=
  { s with container := setFirstPurpleHtml "" s.container }

/-- The content of the first node carrying the given id, if any. -/
def contentOf (rid : String) (c : List Node) : Option NodeContent :=
  (c.find? (fun n => n.id = rid)).map Node.content

/-! ## Concrete sample inputs -/

/-- A concrete success entry for strategy 1. -/
def sampleSuccessEntry : ResultEntry :=
  { strategy_number := 1, status := "success", link := "L", strategy := "S",
    backtest := "B", strategy_file := "sf", backtest_file := "bf", error := "" }

/-- A concrete error entry for strategy 1. -/
def sampleErrorEntry : ResultEntry :=
  { strategy_number := 1, status := "error", link := "", strategy := "",
    backtest := "", strategy_file := "", backtest_file := "", error := "boom" }

/-- A probe answering 200 with one success entry, job not complete. -/
def sampleSuccessProbe : ProbeResult :=
  ProbeResult.response true
    { status := "success", results := some [sampleSuccessEntry], is_complete := false }

/-- A probe answering 200 with one success entry and is_complete true. -/
def sampleCompleteProbe : ProbeResult :=
  ProbeResult.response true
    { status := "success", results := some [sampleSuccessEntry], is_complete := true }

/-- A probe answering 200 with an empty results array. -/
def emptyProbe : ProbeResult :=
  ProbeResult.response true
    { status := "success", results := some [], is_complete := false }

/-- Page state before the first submission. -/
def initialPage : St :=
  { pollActive := false, retryCount := 0, spinnerHidden := true, container := [],
    clearCount := 0, phasesStartedCount := 0, pollsStartedCount := 0 }

/-- Invariant of a polling session: while the interval is registered the
timer has never been cleared and the retry counter is below the budget;
once it is deregistered it was cleared exactly once. -/
def sessionInvariant (s : St) : Prop :=
  (s.pollActive = true ∧ s.clearCount = 0 ∧ s.retryCount < MAX_RETRIES)
  ∨ (s.pollActive = false ∧ s.clearCount = 1)

/-!
## Theorems
-/

/-- C7: over the phase timeline of one submission, started from the
clean initial page, the activation marks visit research, backtest and
debug in exactly that order; every intermediate state has at most one
phase element carrying the active class; and no updatePhase call
targets a phase after the call that marked it complete, so a completed
phase is never again marked active within the run. -/
theorem phase_timeline_invariants :
    activationOrder fullRunEvents
      = [PhaseId.research, PhaseId.backtest, PhaseId.debug]
    ∧ (∀ ps ∈ phaseTrace initialPhases fullRunEvents, activeCount ps ≤ 1)
    ∧ noMarksAfterComplete fullRunEvents = true := by
  refine ⟨by decide, ?_, by decide⟩
  decide

/-- C7 witness. -/
theorem phase_timeline_invariants_witness :
    activeCount initialPhases ≤ 1 :=
  phase_timeline_invariants.2.1 initialPhases (by decide)

/-- C8 counterexample: a pending wait of a superseded run appends its
message into the message container that the new submission has just
reset, because both runs reference the same container element.  Here
run 1 appends after the reset and its message is the content of the
reset container, refuting the stale-write-prevention claim. -/
theorem stale_write_reaches_reset_container :
    phaseMsgs PhaseId.research
      (simRun { researchMsgs := [(1, "old message")], backtestMsgs := [], debugMsgs := [] }
        [SimEvent.resetAll,
         SimEvent.appendMsg 1 PhaseId.research "stale append"])
      = [(1, "stale append")] := by
  decide

/-- C8 amended: the runs share the container elements, and a reset
clears them in place, so a superseded run with pending waits appends
into the newly-reset containers; every pending append of the old run
still executes to completion (no write is lost and none fails). -/
theorem shared_container_append_semantics :
    (∀ (s : SimState) (r : Nat) (i : PhaseId) (m : String),
       phaseMsgs i (stepSim (stepSim s SimEvent.resetAll) (SimEvent.appendMsg r i m))
         = [(r, m)])
    ∧ (∀ (s : SimState) (r : Nat) (i : PhaseId) (msgs : List String),
       phaseMsgs i (msgs.foldl (fun st m => stepSim st (SimEvent.appendMsg r i m)) s)
         = phaseMsgs i s ++ msgs.map (fun m => (r, m))) := by
  constructor
  · intro s r i m
    cases i <;> rfl
  · intro s r i msgs
    induction msgs generalizing s with
    | nil => simp
    | cons m rest ih =>
      rw [List.foldl_cons, ih]
      cases i <;> simp [stepSim, phaseMsgs]

/-- C6 divergence, evaluated at the failing input: after one tick that
renders the success entry for strategy 1 (and removes the initial
processing message), a following success+empty tick routes through
handlePollingError, whose querySelector on class text-purple-400 finds
the Download Strategy anchor inside the rendered entry and overwrites
its body with the status text; the rendered node no longer equals the
rendering of the most recently upserted entry. -/
theorem retryable_tick_overwrites_download_anchor :
    contentOf "strategy-1"
        (tick (tick freshSession sampleSuccessProbe) emptyProbe).container
      = some (NodeContent.successLayout 1 "L" "S" "B"
          [{ href := "/download/strategy/sf",
             html := attemptHtml stillProcessingMsg 1 },
           { href := "/download/backtest/bf", html := downloadBacktestHtml }])
    ∧ contentOf "strategy-1"
        (tick (tick freshSession sampleSuccessProbe) emptyProbe).container
      ≠ some (renderContent sampleSuccessEntry) := by
  constructor
  · decide
  · decide

/-- C4 counterexample: a submit acknowledged with a non-success status
creates no polling session and starts no phase animation, but it does
not show a fatal error message either: the catch handler routes through
handlePollingError, leaving a purple status message reading Starting
strategy processing with an attempt counter, and no error box. -/
theorem failed_submit_shows_no_fatal_error :
    (submitStep initialPage (SubmitResult.response true "error" none)).pollsStartedCount = 0
    ∧ (submitStep initialPage (SubmitResult.response true "error" none)).phasesStartedCount = 0
    ∧ (submitStep initialPage (SubmitResult.response true "error" none)).container.any
        isErrorBoxNode = false
    ∧ (submitStep initialPage (SubmitResult.response true "error" none)).container
        = [{ id := "", classes := statusClasses,
             content := NodeContent.statusDiv (attemptHtml startingMsg 1) }] := by
  refine ⟨by decide, by decide, by decide, by decide⟩

/-- C5 counterexample: with the entry for strategy 1 rendered and the
retry budget then exhausted by ten success+empty ticks, the terminal
notice is rendered by showError, which replaces the entire content of
the results container with a red error box: the node for strategy 1 was
displayed before exhaustion and is gone afterwards. -/
theorem exhaustion_wipes_rendered_entries :
    ((run freshSession (sampleSuccessProbe :: List.replicate 9 emptyProbe)).container.any
        (fun n => n.id = "strategy-1") = true)
    ∧ ((run freshSession (sampleSuccessProbe :: List.replicate 10 emptyProbe)).container.any
        (fun n => n.id = "strategy-1") = false)
    ∧ (run freshSession (sampleSuccessProbe :: List.replicate 10 emptyProbe)).container
        = [{ id := "", classes := errorBoxClasses,
             content := NodeContent.errorBox softExhaustionMessage }] := by
  refine ⟨by decide, by decide, by decide⟩

/-! ### Normal forms of the tick branches -/

/-- Normal form of handlePollingError. -/
theorem handlePollingError_eq (m : String) (s : St) :
    handlePollingError m s =
      if s.retryCount + 1 ≥ MAX_RETRIES then
        { pollActive := false, retryCount := s.retryCount + 1, spinnerHidden := true,
          container := [{ id := "", classes := errorBoxClasses,
                          content := NodeContent.errorBox softExhaustionMessage }],
          clearCount := s.clearCount + 1,
          phasesStartedCount := s.phasesStartedCount,
          pollsStartedCount := s.pollsStartedCount }
      else
        { pollActive := s.pollActive, retryCount := s.retryCount + 1,
          spinnerHidden := s.spinnerHidden,
          container :=
            if s.container.any nodeHasPurple then
              setFirstPurpleHtml (attemptHtml m (s.retryCount + 1)) s.container
            else s.container
              ++ [{ id := "", classes := statusClasses,
                    content := NodeContent.statusDiv (attemptHtml m (s.retryCount + 1)) }],
          clearCount := s.clearCount,
          phasesStartedCount := s.phasesStartedCount,
          pollsStartedCount := s.pollsStartedCount } := by
  unfold handlePollingError showError
  split <;> rfl

/-- Normal form of successTick. -/
theorem successTick_eq (rs : List ResultEntry) (complete : Bool) (s : St) :
    successTick rs complete s =
      if complete then
        { pollActive := false, retryCount := 0, spinnerHidden := true,
          container := rs.foldl updateResult
            (if s.container.any nodeHasPurple then removeFirstPurple s.container
             else s.container),
          clearCount := s.clearCount + 1,
          phasesStartedCount := s.phasesStartedCount,
          pollsStartedCount := s.pollsStartedCount }
      else
        { s with retryCount := 0,
                 container := rs.foldl updateResult
                   (if s.container.any nodeHasPurple then removeFirstPurple s.container
                    else s.container) } := by
  unfold successTick
  split <;> rfl

/-- The tick of a probe classified success+results is the success branch. -/
theorem tick_success_eq (s : St) (d : ResultsResponse) (rs : List ResultEntry)
    (h : classifySuccess d = some rs) :
    tick s (ProbeResult.response true d) = successTick rs d.is_complete s := by
  simp [tick, h]

/-- The tick of any retryable probe is handlePollingError with one of
the three attempt messages. -/
theorem tick_retryable_eq (s : St) (p : ProbeResult) (h : isRetryable p = true) :
    tick s p = handlePollingError stillProcessingMsg s
    ∨ tick s p = handlePollingError timeoutMsg s
    ∨ tick s p = handlePollingError checkingMsg s := by
  cases p with
  | response ok d =>
    cases ok with
    | true =>
      have hn : classifySuccess d = none := by
        simpa [isRetryable, Option.isNone_iff_eq_none] using h
      left
      simp [tick, hn]
    | false =>
      right; right; rfl
  | fetchError name =>
    by_cases ht : (name = "TimeoutError" || name = "AbortError") = true
    · right; left; simp [tick, ht]
    · right; right
      simp only [Bool.or_eq_true, decide_eq_true_eq] at ht
      push_neg at ht
      simp [tick, ht.1, ht.2]

/-- handlePollingError increments the retry counter by exactly one. -/
theorem handlePollingError_retryCount (m : String) (s : St) :
    (handlePollingError m s).retryCount = s.retryCount + 1 := by
  rw [handlePollingError_eq]
  split <;> rfl

/-! ### Status message overwrites hit the same element -/

/-- Setting the first purple element twice keeps only the second value:
the first write does not move the target of the selector. -/
theorem setFirstPurpleHtml_idem (h1 h2 : String) (c : List Node) :
    setFirstPurpleHtml h2 (setFirstPurpleHtml h1 c) = setFirstPurpleHtml h2 c := by
  induction c with
  | nil => rfl
  | cons n rest ih =>
    by_cases hm : purpleClass ∈ n.classes
    · cases hc : n.content <;> simp [setFirstPurpleHtml, hm, hc, setContentHtml]
    · cases hc : n.content with
      | successLayout k l s b anchors =>
        cases anchors with
        | nil => simp [setFirstPurpleHtml, hm, hc, ih]
        | cons a as => simp [setFirstPurpleHtml, hm, hc]
      | empty => simp [setFirstPurpleHtml, hm, hc, ih]
      | errorLayout k msg => simp [setFirstPurpleHtml, hm, hc, ih]
      | statusDiv html => simp [setFirstPurpleHtml, hm, hc, ih]
      | errorBox msg => simp [setFirstPurpleHtml, hm, hc, ih]

/-- A purple-free prefix is skipped by the selector. -/
theorem setFirstPurpleHtml_append_of_no_purple (x : String) (c l : List Node)
    (h : c.any nodeHasPurple = false) :
    setFirstPurpleHtml x (c ++ l) = c ++ setFirstPurpleHtml x l := by
  induction c with
  | nil => rfl
  | cons n rest ih =>
    simp only [List.any_cons, Bool.or_eq_false_iff] at h
    have hnp := h.1
    unfold nodeHasPurple at hnp
    simp only [Bool.or_eq_false_iff] at hnp
    have hm : purpleClass ∉ n.classes := by simpa using hnp.1
    have han : (contentAnchors n.content).isEmpty = true := by simpa using hnp.2
    cases hc : n.content with
    | successLayout k l2 s b anchors =>
      cases anchors with
      | nil => simp [setFirstPurpleHtml, hm, hc, ih h.2]
      | cons a as =>
        rw [hc] at han
        simp [contentAnchors] at han
    | empty => simp [setFirstPurpleHtml, hm, hc, ih h.2]
    | errorLayout k msg => simp [setFirstPurpleHtml, hm, hc, ih h.2]
    | statusDiv html => simp [setFirstPurpleHtml, hm, hc, ih h.2]
    | errorBox msg => simp [setFirstPurpleHtml, hm, hc, ih h.2]

/-- The results of handlePollingError with two different messages agree
after blanking the status text: the wording of the message is the only
difference. -/
theorem scrub_handlePollingError (m1 m2 : String) (s : St) :
    scrubStatusHtml (handlePollingError m1 s)
      = scrubStatusHtml (handlePollingError m2 s) := by
  rw [handlePollingError_eq, handlePollingError_eq]
  by_cases hk : s.retryCount + 1 ≥ MAX_RETRIES
  · simp [hk]
  · simp only [if_neg hk]
    unfold scrubStatusHtml
    by_cases hp : s.container.any nodeHasPurple
    · simp [hp, setFirstPurpleHtml_idem]
    · simp only [Bool.not_eq_true] at hp
      simp [hp, setFirstPurpleHtml_append_of_no_purple _ _ _ hp,
            setFirstPurpleHtml, statusClasses, purpleClass, setContentHtml]

/-- C9: a probe rejected with name TimeoutError or AbortError and a
probe rejected with any other name each increment the single retry
counter by exactly one toward the shared budget; their resulting states
agree after blanking the status text, so they differ only in the
wording of the rendered message; and below the budget neither outcome
deactivates polling or hides the spinner. -/
theorem timeout_abort_transport_same_retry_accounting (s : St) (name : String)
    (h1 : name ≠ "TimeoutError") (h2 : name ≠ "AbortError") :
    ((tick s (ProbeResult.fetchError "TimeoutError")).retryCount = s.retryCount + 1
     ∧ (tick s (ProbeResult.fetchError "AbortError")).retryCount = s.retryCount + 1
     ∧ (tick s (ProbeResult.fetchError name)).retryCount = s.retryCount + 1)
    ∧ (scrubStatusHtml (tick s (ProbeResult.fetchError "TimeoutError"))
         = scrubStatusHtml (tick s (ProbeResult.fetchError name))
       ∧ scrubStatusHtml (tick s (ProbeResult.fetchError "AbortError"))
         = scrubStatusHtml (tick s (ProbeResult.fetchError name)))
    ∧ (s.retryCount + 1 < MAX_RETRIES →
         (tick s (ProbeResult.fetchError "TimeoutError")).pollActive = s.pollActive
         ∧ (tick s (ProbeResult.fetchError "AbortError")).pollActive = s.pollActive
         ∧ (tick s (ProbeResult.fetchError name)).pollActive = s.pollActive
         ∧ (tick s (ProbeResult.fetchError "TimeoutError")).spinnerHidden = s.spinnerHidden
         ∧ (tick s (ProbeResult.fetchError name)).spinnerHidden = s.spinnerHidden) := by
  have et : tick s (ProbeResult.fetchError "TimeoutError")
      = handlePollingError timeoutMsg s := by simp [tick]
  have ea : tick s (ProbeResult.fetchError "AbortError")
      = handlePollingError timeoutMsg s := by simp [tick]
  have en : tick s (ProbeResult.fetchError name)
      = handlePollingError checkingMsg s := by simp [tick, h1, h2]
  refine ⟨⟨?_, ?_, ?_⟩, ⟨?_, ?_⟩, ?_⟩
  · rw [et, handlePollingError_retryCount]
  · rw [ea, handlePollingError_retryCount]
  · rw [en, handlePollingError_retryCount]
  · rw [et, en]; exact scrub_handlePollingError _ _ s
  · rw [ea, en]; exact scrub_handlePollingError _ _ s
  · intro hlt
    have hk : ¬ s.retryCount + 1 ≥ MAX_RETRIES := by omega
    rw [et, ea, en]
    simp [handlePollingError_eq, hk]

/-- C9 witness. -/
theorem timeout_abort_transport_same_retry_accounting_witness :
    (tick freshSession (ProbeResult.fetchError "TimeoutError")).retryCount
      = freshSession.retryCount + 1
    ∧ scrubStatusHtml (tick freshSession (ProbeResult.fetchError "TimeoutError"))
      = scrubStatusHtml (tick freshSession (ProbeResult.fetchError "TypeError")) := by
  have h := timeout_abort_transport_same_retry_accounting freshSession "TypeError"
    (by decide) (by decide)
  exact ⟨h.1.1, h.2.1.1⟩

/-- C3: a tick of an active session whose probe is classified
success+results and whose body carries is_complete true deactivates
polling and hides the spinner, for every value of the retry counter;
and these are the only deactivations a tick can make: any tick that
deactivates an active session is either such a success+complete tick or
a retryable tick that pushed the counter to the budget. -/
theorem success_complete_sole_success_terminal :
    (∀ (s : St) (d : ResultsResponse) (rs : List ResultEntry),
       s.pollActive = true → classifySuccess d = some rs → d.is_complete = true →
       (tick s (ProbeResult.response true d)).pollActive = false
       ∧ (tick s (ProbeResult.response true d)).spinnerHidden = true)
    ∧ (∀ (s : St) (p : ProbeResult), s.pollActive = true →
         (tick s p).pollActive = false →
         (∃ (d : ResultsResponse) (rs : List ResultEntry),
            p = ProbeResult.response true d ∧ classifySuccess d = some rs
            ∧ d.is_complete = true)
         ∨ (isRetryable p = true ∧ s.retryCount + 1 ≥ MAX_RETRIES)) := by
  constructor
  · intro s d rs _ hcs hcomp
    rw [tick_success_eq s d rs hcs, successTick_eq, hcomp]
    exact ⟨rfl, rfl⟩
  · intro s p hact hterm
    by_cases hret : isRetryable p = true
    · right
      refine ⟨hret, ?_⟩
      by_contra hk
      rcases tick_retryable_eq s p hret with h | h | h <;>
        rw [h, handlePollingError_eq, if_neg hk] at hterm <;>
        rw [hact] at hterm <;> exact Bool.true_eq_false.mp hterm
    · left
      cases p with
      | response ok d =>
        cases ok with
        | true =>
          cases hcs : classifySuccess d with
          | none => exact absurd (by simp [isRetryable, hcs]) hret
          | some rs =>
            refine ⟨d, rs, rfl, hcs, ?_⟩
            by_contra hcomp
            have hcf : d.is_complete = false := Bool.not_eq_true _ |>.mp hcomp
            rw [tick_success_eq s d rs hcs, successTick_eq, hcf] at hterm
            simp at hterm
            rw [hact] at hterm
            exact Bool.true_eq_false.mp hterm
        | false => exact absurd rfl hret
      | fetchError name => exact absurd rfl hret

/-- C3 witness. -/
theorem success_complete_sole_success_terminal_witness :
    (tick freshSession sampleCompleteProbe).pollActive = false
    ∧ (tick freshSession sampleCompleteProbe).spinnerHidden = true :=
  success_complete_sole_success_terminal.1 freshSession
    { status := "success", results := some [sampleSuccessEntry], is_complete := true }
    [sampleSuccessEntry] rfl (by decide) rfl

/-- C5 amended: when a retryable tick pushes the counter to the budget,
the session deactivates and the notice with the soft wording is
rendered, but as the single red error box that showError leaves as the
entire content of the results container, so nothing rendered earlier is
still displayed. -/
theorem exhaustion_replaces_container_with_soft_error_box (s : St) (p : ProbeResult)
    (hret : isRetryable p = true) (hmax : s.retryCount + 1 ≥ MAX_RETRIES) :
    (tick s p).container
      = [{ id := "", classes := errorBoxClasses,
           content := NodeContent.errorBox softExhaustionMessage }]
    ∧ (tick s p).pollActive = false
    ∧ (tick s p).spinnerHidden = true
    ∧ (tick s p).retryCount = s.retryCount + 1 := by
  rcases tick_retryable_eq s p hret with h | h | h <;>
    rw [h, handlePollingError_eq, if_pos hmax] <;> exact ⟨rfl, rfl, rfl, rfl⟩

/-- C5 amended witness. -/
theorem exhaustion_replaces_container_with_soft_error_box_witness :
    (tick { freshSession with retryCount := 9 } emptyProbe).container
      = [{ id := "", classes := errorBoxClasses,
           content := NodeContent.errorBox softExhaustionMessage }]
    ∧ (tick { freshSession with retryCount := 9 } emptyProbe).pollActive = false :=
  have h := exhaustion_replaces_container_with_soft_error_box
    { freshSession with retryCount := 9 } emptyProbe (by decide) (by decide)
  ⟨h.1, h.2.1⟩

/-- C4 amended: on a submit that fails in transport, in HTTP status or
in its acknowledgment body, no polling session is created and no phase
animation starts; but instead of a fatal error the catch handler runs
handlePollingError, which sets the retry counter to one (it was just
reset) and leaves a purple status message with the starting wording and
an attempt counter — never the error box. -/
theorem failed_submit_no_session_no_phases (s : St) (r : SubmitResult)
    (h : submitFails r = true) :
    (submitStep s r).pollsStartedCount = s.pollsStartedCount
    ∧ (submitStep s r).phasesStartedCount = s.phasesStartedCount
    ∧ (submitStep s r).pollActive = s.pollActive
    ∧ (submitStep s r).retryCount = 1
    ∧ (submitStep s r).container
        = [{ id := "", classes := statusClasses,
             content := NodeContent.statusDiv (attemptHtml startingMsg 1) }]
    ∧ (submitStep s r).container.any isErrorBoxNode = false := by
  have key : submitStep s r
      = handlePollingError startingMsg
          { s with container := [], spinnerHidden := false, retryCount := 0 } := by
    cases r with
    | response ok st msg =>
      cases ok with
      | true =>
        have hst : ¬ st = "success" := by simpa [submitFails] using h
        simp [submitStep, hst]
      | false => rfl
    | fetchError name => rfl
  rw [key, handlePollingError_eq]
  simp [MAX_RETRIES, isErrorBoxNode, attemptHtml]

/-- C4 amended witness. -/
theorem failed_submit_no_session_no_phases_witness :
    (submitStep initialPage (SubmitResult.fetchError "TypeError")).pollsStartedCount = 0
    ∧ (submitStep initialPage (SubmitResult.fetchError "TypeError")).retryCount = 1 :=
  have h := failed_submit_no_session_no_phases initialPage
    (SubmitResult.fetchError "TypeError") (by decide)
  ⟨h.1, h.2.2.2.1⟩

/-! ### The retry counter and timer-clearing invariant -/

/-- Any tick of an active session preserves the session invariant. -/
theorem sessionInvariant_tick (s : St) (p : ProbeResult)
    (hinv : sessionInvariant s) (hact : s.pollActive = true) :
    sessionInvariant (tick s p) := by
  rcases hinv with ⟨_, hc, hr⟩ | ⟨hacf, _⟩
  case inr => exact absurd (hact.symm.trans hacf) (by decide)
  by_cases hret : isRetryable p = true
  · rcases tick_retryable_eq s p hret with h | h | h <;> rw [h, handlePollingError_eq] <;>
      by_cases hk : s.retryCount + 1 ≥ MAX_RETRIES
    all_goals try
      (rw [if_pos hk]
       exact Or.inr ⟨rfl, by show s.clearCount + 1 = 1; rw [hc]⟩)
    all_goals
      (rw [if_neg hk]
       refine Or.inl ⟨hact, hc, ?_⟩
       show s.retryCount + 1 < MAX_RETRIES
       omega)
  · cases p with
    | response ok d =>
      cases ok with
      | true =>
        cases hcs : classifySuccess d with
        | none => exact absurd (by simp [isRetryable, hcs]) hret
        | some rs =>
          rw [tick_success_eq s d rs hcs, successTick_eq]
          cases hcomp : d.is_complete with
          | false =>
            rw [if_neg (by simp)]
            exact Or.inl ⟨hact, hc, by show (0 : Nat) < MAX_RETRIES; decide⟩
          | true =>
            rw [if_pos rfl]
            exact Or.inr ⟨rfl, by show s.clearCount + 1 = 1; rw [hc]⟩
      | false => exact absurd rfl hret
    | fetchError name => exact absurd rfl hret

/-- The session invariant is preserved by whole runs. -/
theorem sessionInvariant_run (s : St) (ps : List ProbeResult)
    (hinv : sessionInvariant s) : sessionInvariant (run s ps) := by
  induction ps generalizing s with
  | nil => exact hinv
  | cons p rest ih =>
    by_cases hact : s.pollActive = true
    · simp only [run, if_pos hact]
      exact ih _ (sessionInvariant_tick s p hinv hact)
    · simp only [run, if_neg hact]
      exact hinv

/-- C1: a success+results tick resets the retry counter to 0; every
retryable tick (success+empty, transport error or timeout) increments
it by exactly one; over every session run from the fresh session the
timer is cleared at most once, a still-active session has never cleared
it and keeps the counter below MAX_RETRIES, and a counter that reached
MAX_RETRIES means the session deactivated and cleared the timer exactly
once; and clearInterval on an already-cleared handle is a no-op. -/
theorem retry_counter_state_machine :
    (∀ (s : St) (d : ResultsResponse) (rs : List ResultEntry),
       classifySuccess d = some rs →
       (tick s (ProbeResult.response true d)).retryCount = 0)
    ∧ (∀ (s : St) (p : ProbeResult), isRetryable p = true →
         (tick s p).retryCount = s.retryCount + 1)
    ∧ (∀ ps : List ProbeResult,
         (run freshSession ps).clearCount ≤ 1
         ∧ ((run freshSession ps).pollActive = true →
              (run freshSession ps).clearCount = 0
              ∧ (run freshSession ps).retryCount < MAX_RETRIES)
         ∧ ((run freshSession ps).retryCount = MAX_RETRIES →
              (run freshSession ps).pollActive = false
              ∧ (run freshSession ps).clearCount = 1))
    ∧ (∀ (timers : List Nat) (h : Nat),
         clearIntervalJS (clearIntervalJS timers h) h = clearIntervalJS timers h) := by
  refine ⟨?_, ?_, ?_, ?_⟩
  · intro s d rs hcs
    rw [tick_success_eq s d rs hcs, successTick_eq]
    split <;> rfl
  · intro s p hret
    rcases tick_retryable_eq s p hret with h | h | h <;>
      rw [h, handlePollingError_retryCount]
  · intro ps
    have hfresh : sessionInvariant freshSession := Or.inl ⟨rfl, rfl, by decide⟩
    rcases sessionInvariant_run freshSession ps hfresh with ⟨ha, hc, hr⟩ | ⟨ha, hc⟩
    · exact ⟨by omega, fun _ => ⟨hc, hr⟩,
        fun hmax => by rw [hmax] at hr; exact absurd hr (lt_irrefl _)⟩
    · exact ⟨by omega, fun hact => absurd (hact.symm.trans ha) (by decide),
        fun _ => ⟨ha, hc⟩⟩
  · intro timers h
    simp [clearIntervalJS, List.filter_filter]

/-- C1 witness. -/
theorem retry_counter_state_machine_witness :
    (tick freshSession sampleSuccessProbe).retryCount = 0
    ∧ (tick freshSession (ProbeResult.fetchError "TimeoutError")).retryCount
        = freshSession.retryCount + 1 :=
  ⟨retry_counter_state_machine.1 freshSession
      { status := "success", results := some [sampleSuccessEntry], is_complete := false }
      [sampleSuccessEntry] (by decide),
   retry_counter_state_machine.2.1 freshSession
      (ProbeResult.fetchError "TimeoutError") (by decide)⟩

/-! ### Persistence of the error-animation class -/

/-- applyResult never changes the id of a node. -/
theorem applyResult_id (r : ResultEntry) (n : Node) : (applyResult r n).id = n.id := by
  unfold applyResult
  split <;> rfl

/-- applyResult writes exactly the rendering of the entry. -/
theorem applyResult_content (r : ResultEntry) (n : Node) :
    (applyResult r n).content = renderContent r := by
  unfold applyResult
  split <;> rfl

/-- classList.add keeps every class already present. -/
theorem mem_addClass_of_mem (classes : List String) (c x : String) (h : x ∈ classes) :
    x ∈ addClass classes c := by
  unfold addClass
  split
  · exact h
  · exact List.mem_append_left _ h

/-- classList.add makes the added class present. -/
theorem mem_addClass_self (classes : List String) (c : String) :
    c ∈ addClass classes c := by
  unfold addClass
  split
  case isTrue h => simpa using h
  case isFalse h => exact List.mem_append_right _ (List.mem_singleton.mpr rfl)

/-- applyResult keeps the error-animation class if it was present. -/
theorem applyResult_error_class (r : ResultEntry) (n : Node)
    (h : "error-animation" ∈ n.classes) :
    "error-animation" ∈ (applyResult r n).classes := by
  unfold applyResult
  split
  · exact h
  · exact mem_addClass_of_mem _ _ _ h

/-- applyResult for an error-status entry adds the error-animation
class. -/
theorem applyResult_error_status (r : ResultEntry) (n : Node)
    (hr : ¬ r.status = "success") :
    "error-animation" ∈ (applyResult r n).classes := by
  unfold applyResult
  rw [if_neg hr]
  exact mem_addClass_self _ _

/-- replaceFirstById preserves the existence of a node with a property
that the replacement function preserves. -/
theorem replaceFirstById_exists (rid : String) (f : Node → Node) (c : List Node)
    (P : Node → Prop) (hf : ∀ n, P n → P (f n)) (hx : ∃ n ∈ c, P n) :
    ∃ n ∈ replaceFirstById rid f c, P n := by
  induction c with
  | nil => simp at hx
  | cons n rest ih =>
    rcases hx with ⟨m, hm, hPm⟩
    rcases List.mem_cons.mp hm with rfl | hmr
    · by_cases hid : m.id = rid
      · exact ⟨f m, by simp [replaceFirstById, hid], hf m hPm⟩
      · exact ⟨m, by simp [replaceFirstById, hid], hPm⟩
    · by_cases hid : n.id = rid
      · exact ⟨m, by simp [replaceFirstById, hid, hmr], hPm⟩
      · rcases ih ⟨m, hmr, hPm⟩ with ⟨m2, hm2, hPm2⟩
        exact ⟨m2, by simp [replaceFirstById, hid]; right; exact hm2, hPm2⟩

/-- When some node carries the id, replaceFirstById leaves a node that
is the image of a node with that id. -/
theorem replaceFirstById_exists_of_any (rid : String) (f : Node → Node) (c : List Node)
    (P : Node → Prop) (hP : ∀ n, n.id = rid → P (f n))
    (h : c.any (fun n => n.id = rid) = true) :
    ∃ n ∈ replaceFirstById rid f c, P n := by
  induction c with
  | nil => simp at h
  | cons n rest ih =>
    by_cases hid : n.id = rid
    · exact ⟨f n, by simp [replaceFirstById, hid], hP n hid⟩
    · have h2 : rest.any (fun n => n.id = rid) = true := by
        simpa [List.any_cons, hid] using h
      rcases ih h2 with ⟨m, hm, hPm⟩
      exact ⟨m, by simp [replaceFirstById, hid]; right; exact hm, hPm⟩

/-- updateResult with an error-status entry leaves a node for its id
carrying the error-animation class. -/
theorem updateResult_error_exists (c : List Node) (r : ResultEntry)
    (hr : ¬ r.status = "success") :
    ∃ n ∈ updateResult c r, n.id = entryId r ∧ "error-animation" ∈ n.classes := by
  unfold updateResult
  split
  case isTrue h =>
    exact replaceFirstById_exists_of_any _ _ _ _
      (fun n hid => ⟨by rw [applyResult_id]; exact hid,
                     applyResult_error_status r n hr⟩) h
  case isFalse h =>
    refine ⟨applyResult r { id := entryId r, classes := newResultClasses,
                            content := NodeContent.empty },
      List.mem_append_right _ (List.mem_singleton.mpr rfl), ?_, ?_⟩
    · rw [applyResult_id]
    · exact applyResult_error_status r _ hr

/-- updateResult preserves the existence of a node with some id and the
error-animation class. -/
theorem updateResult_preserves_error_exists (c : List Node) (r : ResultEntry)
    (rid : String)
    (hx : ∃ n ∈ c, n.id = rid ∧ "error-animation" ∈ n.classes) :
    ∃ n ∈ updateResult c r, n.id = rid ∧ "error-animation" ∈ n.classes := by
  unfold updateResult
  split
  · exact replaceFirstById_exists _ _ _ _
      (fun n hn => ⟨by rw [applyResult_id]; exact hn.1,
                    applyResult_error_class r n hn.2⟩) hx
  · rcases hx with ⟨n, hn, hP⟩
    exact ⟨n, List.mem_append_left _ hn, hP⟩

/-- A whole sequence of upserts preserves the tagged node. -/
theorem foldl_updateResult_preserves_error (rs : List ResultEntry) (c : List Node)
    (rid : String)
    (hx : ∃ n ∈ c, n.id = rid ∧ "error-animation" ∈ n.classes) :
    ∃ n ∈ rs.foldl updateResult c, n.id = rid ∧ "error-animation" ∈ n.classes := by
  induction rs generalizing c with
  | nil => exact hx
  | cons r rest ih => exact ih _ (updateResult_preserves_error_exists c r rid hx)

/-- C10: once an upsert with status error has been applied to an id,
the rendered node for that id carries the error-animation class after
every further sequence of upserts, including success-status upserts for
the same id: updateResult adds the class on the error branch and no
branch ever removes a class. -/
theorem error_class_persists (c : List Node) (r : ResultEntry) (rs : List ResultEntry)
    (hr : ¬ r.status = "success") :
    ∃ n ∈ rs.foldl updateResult (updateResult c r),
      n.id = entryId r ∧ "error-animation" ∈ n.classes :=
  foldl_updateResult_preserves_error rs _ _ (updateResult_error_exists c r hr)

/-- C10 witness: an error upsert for strategy 1 followed by a success
upsert for the same id still leaves the error-animation class on the
node. -/
theorem error_class_persists_witness :
    ∃ n ∈ [sampleSuccessEntry].foldl updateResult (updateResult [] sampleErrorEntry),
      n.id = entryId sampleErrorEntry ∧ "error-animation" ∈ n.classes :=
  error_class_persists [] sampleErrorEntry [sampleSuccessEntry] (by decide)

/-! ### Last-write-wins shape of the result store -/

/-- Peeling the last upsert of a sequence. -/
theorem store_append (es : List ResultEntry) (e : ResultEntry) :
    (es ++ [e]).foldl updateResult [] = updateResult (es.foldl updateResult []) e := by
  rw [List.foldl_append]
  rfl

/-- firstSeenIds of an extended sequence. -/
theorem firstSeenIds_append (es : List ResultEntry) (e : ResultEntry) :
    firstSeenIds (es ++ [e])
      = if (firstSeenIds es).contains (entryId e) then firstSeenIds es
        else firstSeenIds es ++ [entryId e] := by
  unfold firstSeenIds
  rw [List.foldl_append]
  rfl

/-- lastWith of an extended sequence. -/
theorem lastWith_append (rid : String) (es : List ResultEntry) (e : ResultEntry) :
    lastWith rid (es ++ [e])
      = if entryId e = rid then some e else lastWith rid es := by
  unfold lastWith
  rw [List.filter_append]
  by_cases h : entryId e = rid
  · simp [h, List.getLast?_concat]
  · simp [h]

/-- Membership in the first-seen accumulator. -/
theorem mem_firstSeenIds_foldl (es : List ResultEntry) (acc : List String) (x : String) :
    x ∈ es.foldl
        (fun acc e => if acc.contains (entryId e) then acc else acc ++ [entryId e]) acc
      ↔ x ∈ acc ∨ ∃ e ∈ es, entryId e = x := by
  induction es generalizing acc with
  | nil => simp
  | cons e rest ih =>
    rw [List.foldl_cons]
    by_cases h : acc.contains (entryId e)
    · have hmem : entryId e ∈ acc := by simpa using h
      rw [if_pos h, ih]
      constructor
      · rintro (hx | ⟨e2, he2, hx⟩)
        · exact Or.inl hx
        · exact Or.inr ⟨e2, List.mem_cons_of_mem _ he2, hx⟩
      · rintro (hx | ⟨e2, he2, hx⟩)
        · exact Or.inl hx
        · rcases List.mem_cons.mp he2 with rfl | he2r
          · exact Or.inl (hx ▸ hmem)
          · exact Or.inr ⟨e2, he2r, hx⟩
    · rw [if_neg h, ih]
      constructor
      · rintro (hx | ⟨e2, he2, hx⟩)
        · rcases List.mem_append.mp hx with hx2 | hx2
          · exact Or.inl hx2
          · exact Or.inr ⟨e, List.mem_cons_self _ _,
              (List.mem_singleton.mp hx2).symm⟩
        · exact Or.inr ⟨e2, List.mem_cons_of_mem _ he2, hx⟩
      · rintro (hx | ⟨e2, he2, hx⟩)
        · exact Or.inl (List.mem_append.mpr (Or.inl hx))
        · rcases List.mem_cons.mp he2 with rfl | he2r
          · exact Or.inl (List.mem_append.mpr
              (Or.inr (List.mem_singleton.mpr hx.symm)))
          · exact Or.inr ⟨e2, he2r, hx⟩

/-- The first-seen id list never repeats an id. -/
theorem firstSeenIds_nodup_foldl (es : List ResultEntry) (acc : List String)
    (h : acc.Nodup) :
    (es.foldl
      (fun acc e => if acc.contains (entryId e) then acc else acc ++ [entryId e])
      acc).Nodup := by
  induction es generalizing acc with
  | nil => exact h
  | cons e rest ih =>
    rw [List.foldl_cons]
    by_cases hc : acc.contains (entryId e)
    · rw [if_pos hc]
      exact ih _ h
    · rw [if_neg hc]
      have hx : entryId e ∉ acc := by simpa using hc
      exact ih _ (by simp [List.nodup_append, hx, h])

theorem firstSeenIds_nodup (es : List ResultEntry) : (firstSeenIds es).Nodup :=
  firstSeenIds_nodup_foldl es [] List.nodup_nil

/-- A node with the id exists in the container exactly when the id is
among the rendered ids. -/
theorem any_id_iff (c : List Node) (x : String) :
    c.any (fun n => n.id = x) = true ↔ x ∈ c.map Node.id := by
  rw [List.any_eq_true]
  simp only [List.mem_map, decide_eq_true_eq]

/-- No node with the id means an empty filter. -/
theorem filter_id_eq_nil (c : List Node) (x : String)
    (h : c.any (fun n => n.id = x) = false) :
    c.filter (fun n => n.id = x) = [] := by
  rw [List.filter_eq_nil_iff]
  intro n hn
  simp only [List.any_eq_false] at h
  exact h n hn

/-- Replacing one node in place preserves the id sequence. -/
theorem replaceFirstById_map_id (rid : String) (f : Node → Node)
    (hf : ∀ n, (f n).id = n.id) (c : List Node) :
    (replaceFirstById rid f c).map Node.id = c.map Node.id := by
  induction c with
  | nil => rfl
  | cons n rest ih =>
    by_cases h : n.id = rid
    · simp [replaceFirstById, h, hf]
    · simp [replaceFirstById, h, ih]

/-- Filtering on the replaced id transforms exactly the first match. -/
theorem replaceFirstById_filter_eq (rid : String) (f : Node → Node)
    (hf : ∀ n, (f n).id = n.id) (c : List Node) :
    (replaceFirstById rid f c).filter (fun n => n.id = rid)
      = match c.filter (fun n => n.id = rid) with
        | [] => []
        | n :: ns => f n :: ns := by
  induction c with
  | nil => rfl
  | cons n rest ih =>
    by_cases h : n.id = rid
    · simp [replaceFirstById, h, List.filter_cons, hf]
    · simp [replaceFirstById, h, List.filter_cons, ih]

/-- Filtering on any other id is untouched by the replacement. -/
theorem replaceFirstById_filter_ne (rid rid2 : String) (hne : rid2 ≠ rid)
    (f : Node → Node) (hf : ∀ n, (f n).id = n.id) (c : List Node) :
    (replaceFirstById rid f c).filter (fun n => n.id = rid2)
      = c.filter (fun n => n.id = rid2) := by
  induction c with
  | nil => rfl
  | cons n rest ih =>
    by_cases h : n.id = rid
    · have hne2 : ¬ rid = rid2 := fun hh => hne hh.symm
      simp [replaceFirstById, h, List.filter_cons, hf, hne2]
    · simp [replaceFirstById, h, List.filter_cons, ih]

/-- The shape of the store after any sequence of upserts starting from
the empty container: the rendered ids are the first-seen ids of the
sequence, and the nodes carrying a given id are exactly one node
rendering the most recent entry with that id, or none if the id never
occurred. -/
theorem store_ids_and_content (es : List ResultEntry) :
    ((es.foldl updateResult []).map Node.id = firstSeenIds es)
    ∧ ∀ rid, ((es.foldl updateResult []).filter (fun n => n.id = rid)).map Node.content
        = ((lastWith rid es).map renderContent).toList := by
  induction es using List.reverseRecOn with
  | nil => exact ⟨rfl, fun _ => rfl⟩
  | append_singleton es e ih =>
    obtain ⟨ihA, ihB⟩ := ih
    rw [store_append]
    by_cases h : (es.foldl updateResult []).any (fun n => n.id = entryId e) = true
    · have hmem : entryId e ∈ firstSeenIds es := by
        rw [← ihA]
        exact (any_id_iff _ _).mp h
      have hcont : (firstSeenIds es).contains (entryId e) = true := by simpa using hmem
      constructor
      · rw [updateResult, if_pos h,
            replaceFirstById_map_id _ _ (applyResult_id e), ihA,
            firstSeenIds_append, if_pos hcont]
      · intro rid
        rw [updateResult, if_pos h, lastWith_append]
        by_cases hr : entryId e = rid
        · subst hr
          rw [if_pos rfl,
              replaceFirstById_filter_eq _ _ (applyResult_id e)]
          have hBe := ihB (entryId e)
          cases hfe : (es.foldl updateResult []).filter (fun n => n.id = entryId e) with
          | nil =>
            exfalso
            rcases (List.any_eq_true.mp h) with ⟨n, hn, hid⟩
            have : n ∈ (es.foldl updateResult []).filter (fun n => n.id = entryId e) :=
              List.mem_filter.mpr ⟨hn, hid⟩
            rw [hfe] at this
            exact absurd this (List.not_mem_nil n)
          | cons n ns =>
            rw [hfe] at hBe
            have hns : ns = [] := by
              cases hlw : lastWith (entryId e) es with
              | none => rw [hlw] at hBe; exact absurd hBe (by simp)
              | some e0 =>
                rw [hlw] at hBe
                have : (n :: ns).length = 1 := by
                  have := congrArg List.length hBe
                  simpa using this
                simpa using this
            subst hns
            simp [applyResult_content]
        · rw [if_neg hr,
              replaceFirstById_filter_ne _ _ (fun hh => hr hh.symm) _
                (applyResult_id e), ihB]
    · have hanyf : (es.foldl updateResult []).any (fun n => n.id = entryId e) = false :=
        Bool.not_eq_true _ |>.mp h
      have hnotmem : entryId e ∉ firstSeenIds es := by
        rw [← ihA]
        intro hmem
        rw [(any_id_iff _ _).mpr hmem] at hanyf
        exact absurd hanyf (by simp)
      have hcontf : ¬ (firstSeenIds es).contains (entryId e) = true := by
        simpa using hnotmem
      constructor
      · rw [updateResult, if_neg h, List.map_append, ihA,
            firstSeenIds_append, if_neg hcontf]
        simp [applyResult_id]
      · intro rid
        rw [updateResult, if_neg h, List.filter_append, lastWith_append]
        by_cases hr : entryId e = rid
        · subst hr
          rw [if_pos rfl, filter_id_eq_nil _ _ hanyf]
          simp [applyResult_id, applyResult_content]
        · rw [if_neg hr]
          have hnid : ¬ (applyResult e
              { id := entryId e, classes := newResultClasses,
                content := NodeContent.empty }).id = rid := by
            rw [applyResult_id]
            exact hr
          simp [hnid, ihB]

/-- C2: starting from the empty store, after any finite sequence of
upserts the rendered ids are exactly the first-seen ids of the sequence
in first-seen order without repetition (so each id has exactly one node
at its first-seen position, never reordered or duplicated); the nodes
carrying a given id render exactly the most recently upserted entry
with that id; and an entry renders the success layout exactly when its
status is success and the error layout exactly otherwise. -/
theorem result_store_last_write_wins (es : List ResultEntry) (rid : String) :
    ((es.foldl updateResult []).map Node.id = firstSeenIds es)
    ∧ (((es.foldl updateResult []).filter (fun n => n.id = rid)).map Node.content
        = ((lastWith rid es).map renderContent).toList)
    ∧ ((es.foldl updateResult []).map Node.id).Nodup
    ∧ (∀ e, lastWith rid es = some e →
         ((isSuccessContent (renderContent e) = true ↔ e.status = "success")
          ∧ (isErrorContent (renderContent e) = true ↔ ¬ e.status = "success"))) := by
  refine ⟨(store_ids_and_content es).1, (store_ids_and_content es).2 rid, ?_, ?_⟩
  · rw [(store_ids_and_content es).1]
    exact firstSeenIds_nodup es
  · intro e _
    unfold renderContent isSuccessContent isErrorContent
    by_cases hs : e.status = "success" <;> simp [hs]

/-- C2 witness: a success upsert for strategy 1 followed by an error
upsert for the same id leaves the id list, the single node rendering
the later entry, and the error layout. -/
theorem result_store_last_write_wins_witness :
    ((([sampleSuccessEntry, sampleErrorEntry].foldl updateResult []).filter
        (fun n => n.id = "strategy-1")).map Node.content
      = ((lastWith "strategy-1" [sampleSuccessEntry, sampleErrorEntry]).map
          renderContent).toList)
    ∧ (isErrorContent (renderContent sampleErrorEntry) = true
        ↔ ¬ sampleErrorEntry.status = "success") :=
  ⟨(result_store_last_write_wins [sampleSuccessEntry, sampleErrorEntry] "strategy-1").2.1,
   ((result_store_last_write_wins [sampleSuccessEntry, sampleErrorEntry] "strategy-1").2.2.2
      sampleErrorEntry (by decide)).2⟩

end MonoqBot
